import Mathlib

/-!
Verification of `src/books/modules/notion.py` (repository ericfzhu/toolbox).

The module is a two-function Notion client:
* `post_book_from_goodreads` builds a fixed JSON page-creation body from a
  `GoodReadBook` record and POSTs it to the Notion pages endpoint, returning
  the transport response unmodified;
* `get_currently_reading` POSTs a fixed filter to the database-query endpoint,
  parses the JSON body and projects each result to
  `properties.Name.title[0].plain_text`.

The shallow embedding below models JSON values as an inductive type, Python
runtime faults (`KeyError`, `IndexError`, `TypeError`, JSON decode errors) as
an error type with `Except` results, and the HTTP transport as an explicit
function argument `send : HttpRequest → HttpResponse`.
-/

/-- JSON values, the shape produced by Python `json` and consumed by
`json.dumps` in the source. Objects are ordered key/value lists, matching
Python dict insertion order. -/
inductive JsonValue where
  | null : JsonValue
  | bool : Bool → JsonValue
  | num : Int → JsonValue
  | str : String → JsonValue
  | arr : List JsonValue → JsonValue
  | obj : List (String × JsonValue) → JsonValue

/-- Python runtime faults that the module can surface: dict key misses,
list index misses, non-subscriptable / non-iterable values, and
`requests.Response.json()` failing to decode a non-JSON body. -/
inductive PyError where
  | keyError : String → PyError
  | indexError : PyError
  | typeError : PyError
  | jsonDecodeError : PyError
deriving DecidableEq, Repr

/-- Pure object-field access: `some` the value of key `k` when `j` is an
object that has it, `none` otherwise. Used to state properties about the
JSON bodies the module builds and consumes. -/
def JsonValue.lookup (j : JsonValue) (k : String) : Option JsonValue :=
  match j with
  | .obj fs => fs.lookup k
  | _ => none

/-- Pure array indexing: `some` element `i` when `j` is an array long
enough, `none` otherwise. -/
def JsonValue.index (j : JsonValue) (i : Nat) : Option JsonValue :=
  match j with
  | .arr xs => xs[i]?
  | _ => none

/-- Python subscript `j[k]` with a string key: on a dict it is a key lookup
raising `KeyError` when absent; on any other value it raises `TypeError`. -/
def pySubscriptStr (j : JsonValue) (k : String) : Except PyError JsonValue :=
  match j with
  | .obj fs =>
    match fs.lookup k with
    | some v => .ok v
    | none => .error (.keyError k)
  | _ => .error .typeError

/-- Python subscript `j[i]` with a natural-number key: on a list it indexes,
raising `IndexError` out of range; on a string it yields the one-character
string, as Python string indexing does; on a dict it raises `KeyError`
(JSON object keys are strings, so an integer key is never present); on any
other value it raises `TypeError`. -/
def pySubscriptNat (j : JsonValue) (i : Nat) : Except PyError JsonValue :=
  match j with
  | .arr xs =>
    match xs[i]? with
    | some v => .ok v
    | none => .error .indexError
  | .str s =>
    match s.data[i]? with
    | some c => .ok (.str (String.mk [c]))
    | none => .error .indexError
  | .obj _ => .error (.keyError (toString i))
  | _ => .error .typeError

/-- Python `for x in j`: lists iterate their elements, strings their
one-character substrings, dicts their keys; other values raise
`TypeError`. -/
def pyIterate (j : JsonValue) : Except PyError (List JsonValue) :=
  match j with
  | .arr xs => .ok xs
  | .str s => .ok (s.data.map (fun c => .str (String.mk [c])))
  | .obj fs => .ok (fs.map (fun p => .str p.1))
  | _ => .error .typeError

/-- Python list comprehension `[f x for x in xs]`: evaluates `f` on each
element left to right, propagating the first fault. -/
def pyListComp (f : JsonValue → Except PyError JsonValue) :
    List JsonValue → Except PyError (List JsonValue)
  | [] => .ok []
  | x :: xs => do
    let v ← f x
    let vs ← pyListComp f xs
    .ok (v :: vs)

/-- Modelled from the spec: the `GoodReadBook` record type comes from
`src/books/modules/utils.py`, which is not in the sources; spec §3 gives its
fields as name (text), authors (text), isbn (integer or absent), num_pages
(integer or absent), image (URL string), url (URL string). `notion.py` only
reads these six attributes. -/
structure GoodReadBook where
  name : String
  authors : String
  isbn : Option Int
  num_pages : Option Int
  image : String
  url : String

/-- The two module-level configuration values of `notion.py`, read from the
environment at import time. -/
structure NotionModule where
  NOTION_API_KEY : String
  NOTION_DATABASE_ID : String

/-- `os.environ[k]`: returns the value or raises `KeyError k`. -/
def environ_subscript (env : List (String × String)) (k : String) :
    Except PyError String :=
  match env.lookup k with
  | some v => .ok v
  | none => .error (.keyError k)

/-- Module import of `notion.py` after `load_dotenv()`: the two
`os.environ[...]` reads at lines 11-12 run immediately, so a missing
variable faults before either function value exists. -/
def loadNotionModule (env : List (String × String)) :
    Except PyError NotionModule := do
  let key ← environ_subscript env "NOTION_API_KEY"
  let db ← environ_subscript env "NOTION_DATABASE_ID"
  .ok { NOTION_API_KEY := key, NOTION_DATABASE_ID := db }

/-- An HTTP request as handed to `requests.request`: method, URL, header
list, and the JSON value serialized into `data` by `json.dumps`. -/
structure HttpRequest where
  method : String
  url : String
  headers : List (String × String)
  body : JsonValue

/-- An HTTP response as returned by `requests.request`: the status code and
the result of `.json()` on the body (`none` when the body is not JSON, in
which case `.json()` raises a decode error). -/
structure HttpResponse where
  status : Nat
  body_json : Option JsonValue

/-- The header dict both functions build (lines 18-22 and 66-70). -/
def notionHeaders (m : NotionModule) : List (String × String) :=
  [("Content-Type", "application/json"),
   ("Notion-Version", "2022-02-22"),
   ("Authorization", "Bearer " ++ m.NOTION_API_KEY)]

/-- Python `None`-or-int attribute injected into a JSON body: `json.dumps`
renders `None` as JSON null and an int as a JSON number. -/
def jsonOfOptInt : Option Int → JsonValue
  | none => .null
  | some n => .num n

/-- The dict literal passed to `json.dumps` in `post_book_from_goodreads`
(lines 23-58), field for field. -/
def bookPageBody (m : NotionModule) (book : GoodReadBook) : JsonValue :=
  .obj
    [("parent", .obj [("database_id", .str m.NOTION_DATABASE_ID)]),
     ("properties", .obj
       [("Cover", .obj
          [("type", .str "files"),
           ("files", .arr
             [.obj
               [("name", .str "Cover"),
                ("type", .str "external"),
                ("external", .obj [("url", .str book.image)])]])]),
        ("Status", .obj [("type", .str "select"), ("select", .null)]),
        ("End", .obj [("type", .str "date"), ("date", .null)]),
        ("Name", .obj
          [("type", .str "title"),
           ("title", .arr
             [.obj
               [("type", .str "text"),
                ("text", .obj [("content", .str book.name)])]])]),
        ("Num Pages", .obj
          [("type", .str "number"),
           ("number", jsonOfOptInt book.num_pages)]),
        ("ISBN", .obj
          [("type", .str "number"),
           ("number", jsonOfOptInt book.isbn)]),
        ("Author", .obj
          [("type", .str "rich_text"),
           ("rich_text", .arr
             [.obj
               [("type", .str "text"),
                ("text", .obj [("content", .str book.authors)])]])]),
        ("URL", .obj [("type", .str "url"), ("url", .str book.url)])])]

/-- The request `post_book_from_goodreads` hands to `requests.request`:
POST to the pages endpoint with the Notion headers and the book page body. -/
def bookPageRequest (m : NotionModule) (book : GoodReadBook) : HttpRequest :=
  { method := "POST",
    url := "https://api.notion.com/v1/pages/",
    headers := notionHeaders m,
    body := bookPageBody m book }

/-- `post_book_from_goodreads(book, verbose=False)` (lines 16-60): builds
the request and returns `requests.request(...)`'s response directly. The
`verbose` parameter is accepted and never read, exactly as in the source. -/
def post_book_from_goodreads (m : NotionModule)
    (send : HttpRequest → HttpResponse) (book : GoodReadBook)
    (verbose : Option Bool) : HttpResponse :=
  send (bookPageRequest m book)

/-- The request `get_currently_reading` hands to `requests.request`
(lines 64-73): POST to the database query endpoint with the Notion headers
and the constant Status=Reading filter body. -/
def queryRequest (m : NotionModule) : HttpRequest :=
  { method := "POST",
    url := "https://api.notion.com/v1/databases/" ++ m.NOTION_DATABASE_ID
            ++ "/query",
    headers := notionHeaders m,
    body := .obj
      [("filter", .obj
        [("property", .str "Status"),
         ("select", .obj [("equals", .str "Reading")])])] }

/-- The comprehension body (lines 79-80):
`book["properties"]["Name"]["title"][0]["plain_text"]` with Python
subscript semantics. -/
def extractTitle (book : JsonValue) : Except PyError JsonValue := do
  let p ← pySubscriptStr book "properties"
  let n ← pySubscriptStr p "Name"
  let t ← pySubscriptStr n "title"
  let t0 ← pySubscriptNat t 0
  pySubscriptStr t0 "plain_text"

/-- `get_currently_reading()` (lines 64-82): sends the query request, calls
`.json()` on the response without inspecting the status, subscripts
`response["results"]`, and runs the comprehension over its elements. -/
def get_currently_reading (m : NotionModule)
    (send : HttpRequest → HttpResponse) :
    Except PyError (List JsonValue) :=
  let response := send (queryRequest m)
  match response.body_json with
  | none => .error .jsonDecodeError
  | some j => do
    let results ← pySubscriptStr j "results"
    let items ← pyIterate results
    pyListComp extractTitle items

/-- The pure path `properties.Name.title[0].plain_text` used to state what
the comprehension extracts from one result. -/
def plainTextPath (x : JsonValue) : Option JsonValue :=
  ((((x.lookup "properties").bind (fun p => p.lookup "Name")).bind
      (fun n => n.lookup "title")).bind
      (fun t => t.index 0)).bind
      (fun t0 => t0.lookup "plain_text")

/-- The pure path `properties.Name.title` of one result, used to state the
empty-title fault. -/
def titlePath (x : JsonValue) : Option JsonValue :=
  ((x.lookup "properties").bind (fun p => p.lookup "Name")).bind
    (fun n => n.lookup "title")

/-- The key list of the `properties` object of a page body. -/
def propertyKeys (j : JsonValue) : Option (List String) :=
  match j.lookup "properties" with
  | some (.obj fs) => some (fs.map Prod.fst)
  | _ => none

/-- Field access `properties.<p>` of a page body. -/
def propAt (j : JsonValue) (p : String) : Option JsonValue :=
  (j.lookup "properties").bind (fun ps => ps.lookup p)

/-- State of the Python caller visible to `post_book_from_goodreads`: the
book argument's attributes and the module globals. The source body contains
no assignment to any of them, so the state-passing form threads the state
through unchanged. -/
structure PyState where
  book : GoodReadBook
  config : NotionModule

/-- State-passing form of `post_book_from_goodreads`: attribute and global
reads come from the state, and the function returns the response together
with the post-call state. -/
def post_book_from_goodreads_st (send : HttpRequest → HttpResponse)
    (verbose : Option Bool) (s : PyState) : HttpResponse × PyState :=
  (post_book_from_goodreads s.config send s.book verbose, s)

/-! ### Helper lemmas -/

/-- When the pure lookup finds a value, the Python subscript returns it. -/
theorem pySubscriptStr_of_lookup (j : JsonValue) (k : String) (v : JsonValue)
    (h : j.lookup k = some v) : pySubscriptStr j k = .ok v := by
  cases j <;> simp_all [JsonValue.lookup, pySubscriptStr]

/-- When the pure lookup misses, the Python subscript raises. -/
theorem pySubscriptStr_of_lookup_none (j : JsonValue) (k : String)
    (h : j.lookup k = none) : ∃ e, pySubscriptStr j k = .error e := by
  cases j with
  | obj fs =>
    simp only [JsonValue.lookup] at h
    exact ⟨.keyError k, by simp [pySubscriptStr, h]⟩
  | null => exact ⟨.typeError, rfl⟩
  | bool b => exact ⟨.typeError, rfl⟩
  | num n => exact ⟨.typeError, rfl⟩
  | str s => exact ⟨.typeError, rfl⟩
  | arr xs => exact ⟨.typeError, rfl⟩

/-- When the pure index finds a value, the Python subscript returns it. -/
theorem pySubscriptNat_of_index (j : JsonValue) (i : Nat) (v : JsonValue)
    (h : j.index i = some v) : pySubscriptNat j i = .ok v := by
  cases j <;> simp_all [JsonValue.index, pySubscriptNat]

/-- When the pure plain-text path is defined, the comprehension body
extracts exactly that value. -/
theorem extractTitle_of_plainTextPath (x v : JsonValue)
    (h : plainTextPath x = some v) : extractTitle x = .ok v := by
  unfold plainTextPath at h
  rcases Option.bind_eq_some.mp h with ⟨t0, h4, hpt⟩
  rcases Option.bind_eq_some.mp h4 with ⟨t, h3, hidx⟩
  rcases Option.bind_eq_some.mp h3 with ⟨n, h2, htl⟩
  rcases Option.bind_eq_some.mp h2 with ⟨p, hp, hnm⟩
  simp only [extractTitle, bind, Except.bind,
    pySubscriptStr_of_lookup _ _ _ hp, pySubscriptStr_of_lookup _ _ _ hnm,
    pySubscriptStr_of_lookup _ _ _ htl, pySubscriptNat_of_index _ _ _ hidx,
    pySubscriptStr_of_lookup _ _ _ hpt]

/-- A result whose `properties.Name.title` is the empty list makes the
comprehension body raise `IndexError` at the `[0]` subscript. -/
theorem extractTitle_of_titlePath_nil (x : JsonValue)
    (h : titlePath x = some (.arr [])) :
    extractTitle x = .error .indexError := by
  unfold titlePath at h
  rcases Option.bind_eq_some.mp h with ⟨n, h2, htl⟩
  rcases Option.bind_eq_some.mp h2 with ⟨p, hp, hnm⟩
  simp only [extractTitle, bind, Except.bind,
    pySubscriptStr_of_lookup _ _ _ hp, pySubscriptStr_of_lookup _ _ _ hnm,
    pySubscriptStr_of_lookup _ _ _ htl, pySubscriptNat]
  rfl

/-- The comprehension maps each element along the plain-text path when the
path is defined on all of them. -/
theorem pyListComp_map : ∀ (xs ys : List JsonValue),
    xs.map plainTextPath = ys.map some →
    pyListComp extractTitle xs = .ok ys := by
  intro xs
  induction xs with
  | nil =>
    intro ys h
    cases ys with
    | nil => rfl
    | cons y ys => simp at h
  | cons x xs ih =>
    intro ys h
    cases ys with
    | nil => simp at h
    | cons y ys =>
      simp only [List.map] at h
      injection h with h1 h2
      simp only [pyListComp, bind, Except.bind,
        extractTitle_of_plainTextPath _ _ h1, ih ys h2]

/-- The comprehension propagates the first fault: elements before it
succeed, the faulting element decides the overall error, and later
elements are never reached. -/
theorem pyListComp_error (e : PyError) :
    ∀ (good : List JsonValue) (bad : JsonValue) (rest : List JsonValue),
    (∀ x ∈ good, ∃ v, extractTitle x = .ok v) →
    extractTitle bad = .error e →
    pyListComp extractTitle (good ++ bad :: rest) = .error e := by
  intro good
  induction good with
  | nil =>
    intro bad rest _ hbad
    simp only [List.nil_append, pyListComp, bind, Except.bind, hbad]
  | cons g good ih =>
    intro bad rest hgood hbad
    obtain ⟨v, hv⟩ := hgood g (by simp)
    have hrest := ih bad rest (fun x hx => hgood x (by simp [hx])) hbad
    simp only [List.cons_append, pyListComp, bind, Except.bind, hv,
      List.append_eq, hrest]

/-! ### Sample data for concrete instantiations -/

/-- A sample configuration. -/
def sampleModule : NotionModule :=
  { NOTION_API_KEY := "secret-key", NOTION_DATABASE_ID := "db42" }

/-- A fully populated sample book. -/
def sampleBook : GoodReadBook :=
  { name := "Dune", authors := "Frank Herbert", isbn := some 9780441013593,
    num_pages := some 412, image := "https://img.example/dune.jpg",
    url := "https://goodreads.example/dune" }

/-- A sample book with both optional numeric fields absent. -/
def noNumbersBook : GoodReadBook :=
  { name := "Dune", authors := "Frank Herbert", isbn := none,
    num_pages := none, image := "https://img.example/dune.jpg",
    url := "https://goodreads.example/dune" }

/-- One well-formed query result carrying the title "Dune". -/
def duneResult : JsonValue :=
  .obj [("properties", .obj
    [("Name", .obj
      [("title", .arr [.obj [("plain_text", .str "Dune")]])])])]

/-- A query response whose results list holds exactly `duneResult`. -/
def duneResponseJson : JsonValue := .obj [("results", .arr [duneResult])]

/-- A query response with an empty results list. -/
def emptyResultsJson : JsonValue := .obj [("results", .arr [])]

/-- A query result whose `Name.title` list is empty. -/
def emptyTitleResult : JsonValue :=
  .obj [("properties", .obj [("Name", .obj [("title", .arr [])])])]

/-- A query response whose single result has an empty title list. -/
def emptyTitleResponseJson : JsonValue :=
  .obj [("results", .arr [emptyTitleResult])]

/-! ### Claim theorems -/

/-- C1: for every `GoodReadBook`, the page-creation body built by
`post_book_from_goodreads` has exactly the eight property keys Cover,
Status, End, Name, Num Pages, ISBN, Author, URL;
`properties.Name.title[0].text.content` is `book.name`,
`properties.URL.url` is `book.url`,
`properties.Cover.files[0].external.url` is `book.image`,
`properties.Author.rich_text[0].text.content` is `book.authors`,
`properties."Num Pages".number` is `book.num_pages`,
`properties.ISBN.number` is `book.isbn`, and `Status.select` and
`End.date` are null; all keys are present whatever the record's fields. -/
theorem post_book_body_shape (m : NotionModule) (book : GoodReadBook) :
    propertyKeys (bookPageBody m book) =
      some ["Cover", "Status", "End", "Name", "Num Pages", "ISBN",
            "Author", "URL"]
  ∧ ((((propAt (bookPageBody m book) "Name").bind
        (fun v => v.lookup "title")).bind (fun t => t.index 0)).bind
        (fun t0 => t0.lookup "text")).bind (fun tx => tx.lookup "content")
      = some (.str book.name)
  ∧ (propAt (bookPageBody m book) "URL").bind (fun v => v.lookup "url")
      = some (.str book.url)
  ∧ ((((propAt (bookPageBody m book) "Cover").bind
        (fun v => v.lookup "files")).bind (fun f => f.index 0)).bind
        (fun f0 => f0.lookup "external")).bind (fun ex => ex.lookup "url")
      = some (.str book.image)
  ∧ ((((propAt (bookPageBody m book) "Author").bind
        (fun v => v.lookup "rich_text")).bind (fun t => t.index 0)).bind
        (fun t0 => t0.lookup "text")).bind (fun tx => tx.lookup "content")
      = some (.str book.authors)
  ∧ (propAt (bookPageBody m book) "Num Pages").bind
        (fun v => v.lookup "number") = some (jsonOfOptInt book.num_pages)
  ∧ (propAt (bookPageBody m book) "ISBN").bind
        (fun v => v.lookup "number") = some (jsonOfOptInt book.isbn)
  ∧ (propAt (bookPageBody m book) "Status").bind
        (fun v => v.lookup "select") = some .null
  ∧ (propAt (bookPageBody m book) "End").bind
        (fun v => v.lookup "date") = some .null :=
  ⟨rfl, rfl, rfl, rfl, rfl, rfl, rfl, rfl, rfl⟩

/-- C2: for every parsed JSON response whose `results` value is an array on
all of whose elements the path `properties.Name.title[0].plain_text` is
defined, `get_currently_reading` returns exactly those path values in
response order; the status code is irrelevant. -/
theorem get_currently_reading_maps_results (m : NotionModule)
    (r : HttpResponse) (j : JsonValue) (xs ys : List JsonValue)
    (hbody : r.body_json = some j)
    (hres : j.lookup "results" = some (.arr xs))
    (hmap : xs.map plainTextPath = ys.map some) :
    get_currently_reading m (fun _ => r) = .ok ys := by
  simp only [get_currently_reading, hbody, bind, Except.bind,
    pySubscriptStr_of_lookup _ _ _ hres, pyIterate]
  exact pyListComp_map xs ys hmap

/-- C2 witness: the mocked Dune response yields exactly ["Dune"], and an
empty results list yields []. -/
theorem get_currently_reading_maps_results_witness :
    get_currently_reading sampleModule
        (fun _ => ⟨200, some duneResponseJson⟩) = .ok [.str "Dune"]
  ∧ get_currently_reading sampleModule
        (fun _ => ⟨200, some emptyResultsJson⟩) = .ok [] :=
  ⟨get_currently_reading_maps_results sampleModule
      ⟨200, some duneResponseJson⟩ duneResponseJson [duneResult]
      [.str "Dune"] rfl rfl rfl,
   get_currently_reading_maps_results sampleModule
      ⟨200, some emptyResultsJson⟩ emptyResultsJson [] [] rfl rfl rfl⟩

/-- C3: when some element of `results` has an empty `Name.title` list (and
the elements before it extract cleanly), `get_currently_reading` raises
`IndexError` rather than skipping the record or substituting a default;
the records after the faulting one are never reached. -/
theorem get_currently_reading_empty_title_raises (m : NotionModule)
    (r : HttpResponse) (j : JsonValue) (good : List JsonValue)
    (bad : JsonValue) (rest : List JsonValue)
    (hbody : r.body_json = some j)
    (hres : j.lookup "results" = some (.arr (good ++ bad :: rest)))
    (hgood : ∀ x ∈ good, ∃ v, extractTitle x = .ok v)
    (hbad : titlePath bad = some (.arr [])) :
    get_currently_reading m (fun _ => r) = .error .indexError := by
  simp only [get_currently_reading, hbody, bind, Except.bind,
    pySubscriptStr_of_lookup _ _ _ hres, pyIterate]
  exact pyListComp_error _ good bad rest hgood
    (extractTitle_of_titlePath_nil bad hbad)

/-- C3 witness: a response whose single result has an empty title list
makes `get_currently_reading` fault with `IndexError`. -/
theorem get_currently_reading_empty_title_raises_witness :
    get_currently_reading sampleModule
      (fun _ => ⟨200, some emptyTitleResponseJson⟩) =
      .error .indexError :=
  get_currently_reading_empty_title_raises sampleModule
    ⟨200, some emptyTitleResponseJson⟩ emptyTitleResponseJson
    [] emptyTitleResult [] rfl rfl (by simp) rfl

/-- C4: body construction succeeds for every `GoodReadBook`; the optional
numeric fields are passed through unchanged into the `number` fields, and
in particular an absent isbn or num_pages becomes JSON null. -/
theorem post_book_optional_numbers (m : NotionModule) (book : GoodReadBook) :
    (propAt (bookPageBody m book) "ISBN").bind (fun v => v.lookup "number")
      = some (jsonOfOptInt book.isbn)
  ∧ (propAt (bookPageBody m book) "Num Pages").bind
      (fun v => v.lookup "number") = some (jsonOfOptInt book.num_pages)
  ∧ (book.isbn = none →
      (propAt (bookPageBody m book) "ISBN").bind (fun v => v.lookup "number")
        = some .null)
  ∧ (book.num_pages = none →
      (propAt (bookPageBody m book) "Num Pages").bind
        (fun v => v.lookup "number") = some .null) := by
  have ha : (propAt (bookPageBody m book) "ISBN").bind
      (fun v => v.lookup "number") = some (jsonOfOptInt book.isbn) := rfl
  have hb : (propAt (bookPageBody m book) "Num Pages").bind
      (fun v => v.lookup "number") = some (jsonOfOptInt book.num_pages) := rfl
  refine ⟨ha, hb, fun h => ?_, fun h => ?_⟩
  · rw [ha, h]; rfl
  · rw [hb, h]; rfl

/-- C4 witness: a book with both numeric fields absent produces null in
both `number` fields. -/
theorem post_book_optional_numbers_witness :
    (propAt (bookPageBody sampleModule noNumbersBook) "ISBN").bind
        (fun v => v.lookup "number") = some JsonValue.null
  ∧ (propAt (bookPageBody sampleModule noNumbersBook) "Num Pages").bind
        (fun v => v.lookup "number") = some JsonValue.null :=
  ⟨(post_book_optional_numbers sampleModule noNumbersBook).2.2.1 rfl,
   (post_book_optional_numbers sampleModule noNumbersBook).2.2.2 rfl⟩

/-- C5: `post_book_from_goodreads` returns exactly the response the
transport produced, whatever it is — including non-2xx statuses — with no
status inspection, retry, or translation in between. -/
theorem post_book_returns_transport_response (m : NotionModule)
    (send : HttpRequest → HttpResponse) (book : GoodReadBook)
    (verbose : Option Bool) (r : HttpResponse)
    (h : send (bookPageRequest m book) = r) :
    post_book_from_goodreads m send book verbose = r := h

/-- C5 witness: a transport that answers 500 with a non-JSON body has its
response handed back verbatim. -/
theorem post_book_returns_transport_response_witness :
    post_book_from_goodreads sampleModule (fun _ => ⟨500, none⟩)
      sampleBook none = ⟨500, none⟩ :=
  post_book_returns_transport_response sampleModule (fun _ => ⟨500, none⟩)
    sampleBook none ⟨500, none⟩ rfl

/-- C6: `get_currently_reading` never inspects the HTTP status: a response
whose body is not JSON or lacks the `results` key makes it raise a decode
or key-lookup fault instead of returning a value, and any two responses
with the same body give the same outcome regardless of status. -/
theorem get_currently_reading_no_status_check (m : NotionModule)
    (r : HttpResponse) :
    ((r.body_json = none ∨
        ∃ j, r.body_json = some j ∧ j.lookup "results" = none) →
      ∃ e, get_currently_reading m (fun _ => r) = .error e)
  ∧ (∀ r' : HttpResponse, r.body_json = r'.body_json →
      get_currently_reading m (fun _ => r) =
        get_currently_reading m (fun _ => r')) := by
  constructor
  · intro hbad
    rcases hbad with hnone | ⟨j, hsome, hres⟩
    · exact ⟨.jsonDecodeError, by simp [get_currently_reading, hnone]⟩
    · obtain ⟨e, he⟩ := pySubscriptStr_of_lookup_none j "results" hres
      exact ⟨e, by simp [get_currently_reading, hsome, he, bind, Except.bind]⟩
  · intro r' hbody
    simp only [get_currently_reading, hbody]

/-- C6 witness: a 404 with a non-JSON body raises, and a 404 and a 200
with the same body behave identically. -/
theorem get_currently_reading_no_status_check_witness :
    (∃ e, get_currently_reading sampleModule
        (fun _ => ⟨404, none⟩) = .error e)
  ∧ get_currently_reading sampleModule (fun _ => ⟨404, none⟩) =
      get_currently_reading sampleModule (fun _ => ⟨200, none⟩) :=
  ⟨(get_currently_reading_no_status_check sampleModule ⟨404, none⟩).1
      (Or.inl rfl),
   (get_currently_reading_no_status_check sampleModule ⟨404, none⟩).2
      ⟨200, none⟩ rfl⟩

/-- A transport that always answers 200 with a non-JSON body. -/
def constOkTransport : HttpRequest → HttpResponse := fun _ => ⟨200, none⟩

/-- A transport that answers 200 on POST requests and 500 otherwise; it
agrees with `constOkTransport` on every request the module sends. -/
def postOnlyTransport : HttpRequest → HttpResponse :=
  fun req => if req.method = "POST" then ⟨200, none⟩ else ⟨500, none⟩

/-- C7: both operations send an HTTP POST — `post_book_from_goodreads` to
`https://api.notion.com/v1/pages/` and `get_currently_reading` to
`https://api.notion.com/v1/databases/<NOTION_DATABASE_ID>/query` — each
with exactly the headers Content-Type: application/json, Notion-Version:
2022-02-22, Authorization: Bearer <NOTION_API_KEY>; the query always
carries the constant Status=Reading filter body, and each function's
outcome is determined by the transport's answer on that one request. -/
theorem notion_request_shapes (m : NotionModule) (book : GoodReadBook) :
    (bookPageRequest m book).method = "POST"
  ∧ (bookPageRequest m book).url = "https://api.notion.com/v1/pages/"
  ∧ (bookPageRequest m book).headers =
      [("Content-Type", "application/json"),
       ("Notion-Version", "2022-02-22"),
       ("Authorization", "Bearer " ++ m.NOTION_API_KEY)]
  ∧ (queryRequest m).method = "POST"
  ∧ (queryRequest m).url =
      "https://api.notion.com/v1/databases/" ++ m.NOTION_DATABASE_ID
        ++ "/query"
  ∧ (queryRequest m).headers =
      [("Content-Type", "application/json"),
       ("Notion-Version", "2022-02-22"),
       ("Authorization", "Bearer " ++ m.NOTION_API_KEY)]
  ∧ (queryRequest m).body =
      .obj [("filter", .obj
        [("property", .str "Status"),
         ("select", .obj [("equals", .str "Reading")])])]
  ∧ (∀ (send : HttpRequest → HttpResponse) (verbose : Option Bool),
      post_book_from_goodreads m send book verbose =
        send (bookPageRequest m book))
  ∧ (∀ send send' : HttpRequest → HttpResponse,
      send (queryRequest m) = send' (queryRequest m) →
        get_currently_reading m send = get_currently_reading m send') := by
  refine ⟨rfl, rfl, rfl, rfl, rfl, rfl, rfl, fun send v => rfl,
    fun send send' h => ?_⟩
  simp only [get_currently_reading, h]

/-- C7 witness: two transports that agree on the query request (one of
them answering POSTs only) drive `get_currently_reading` identically. -/
theorem notion_request_shapes_witness :
    get_currently_reading sampleModule constOkTransport =
      get_currently_reading sampleModule postOnlyTransport :=
  (notion_request_shapes sampleModule sampleBook).2.2.2.2.2.2.2.2
    constOkTransport postOnlyTransport rfl

/-- C8: a missing NOTION_API_KEY or NOTION_DATABASE_ID environment variable
makes module load fail with a key-lookup fault, so neither operation can
ever be called. -/
theorem notion_module_load_fail_fast (env : List (String × String)) :
    (env.lookup "NOTION_API_KEY" = none →
      loadNotionModule env = .error (.keyError "NOTION_API_KEY"))
  ∧ (env.lookup "NOTION_DATABASE_ID" = none →
      ∃ k, loadNotionModule env = .error (.keyError k)) := by
  constructor
  · intro h
    simp [loadNotionModule, environ_subscript, h, bind, Except.bind]
  · intro h
    cases hk : env.lookup "NOTION_API_KEY" with
    | none =>
      exact ⟨"NOTION_API_KEY",
        by simp [loadNotionModule, environ_subscript, hk, bind, Except.bind]⟩
    | some v =>
      exact ⟨"NOTION_DATABASE_ID",
        by simp [loadNotionModule, environ_subscript, hk, h, bind,
          Except.bind]⟩

/-- C8 witness: loading against an empty environment faults with the
KeyError for NOTION_API_KEY. -/
theorem notion_module_load_fail_fast_witness :
    loadNotionModule [] = .error (.keyError "NOTION_API_KEY") :=
  (notion_module_load_fail_fast []).1 rfl

/-- C9: the verbose parameter is dead — two calls differing only in its
value (true, false, or Python's default None) send the same request and
return the same result, for every book and transport. -/
theorem post_book_verbose_dead (m : NotionModule)
    (send : HttpRequest → HttpResponse) (book : GoodReadBook)
    (v1 v2 : Option Bool) :
    post_book_from_goodreads m send book v1 =
      post_book_from_goodreads m send book v2 := rfl

/-- C10: `post_book_from_goodreads` mutates nothing: after a call in the
state-passing form, every field of the book argument and both module
configuration values are what they were before the call. -/
theorem post_book_frame (send : HttpRequest → HttpResponse)
    (verbose : Option Bool) (s : PyState) :
    ((post_book_from_goodreads_st send verbose s).2).book.name = s.book.name
  ∧ ((post_book_from_goodreads_st send verbose s).2).book.authors =
      s.book.authors
  ∧ ((post_book_from_goodreads_st send verbose s).2).book.isbn = s.book.isbn
  ∧ ((post_book_from_goodreads_st send verbose s).2).book.num_pages =
      s.book.num_pages
  ∧ ((post_book_from_goodreads_st send verbose s).2).book.image = s.book.image
  ∧ ((post_book_from_goodreads_st send verbose s).2).book.url = s.book.url
  ∧ ((post_book_from_goodreads_st send verbose s).2).config.NOTION_API_KEY =
      s.config.NOTION_API_KEY
  ∧ ((post_book_from_goodreads_st send verbose s).2).config.NOTION_DATABASE_ID
      = s.config.NOTION_DATABASE_ID :=
  ⟨rfl, rfl, rfl, rfl, rfl, rfl, rfl, rfl⟩
